import Mathlib

set_option maxRecDepth 8000

/-!
Shallow embedding of `src/detect_cost_anomalies.py`, a scheduled script that
detects GCP cost anomalies from a billing query result, formats a report,
and best-effort delivers it to a Slack webhook and a GitHub issue.

Modelling conventions:
  * Python floats are modelled as exact rationals (`ℚ`); all numeric values
    appearing in the program (costs, thresholds) are short decimals for which
    this idealisation is exact.
  * A BigQuery result row is a `CostRow`; SQL NULL in a numeric column is
    `Option.none` (the code reads `float(row[c] or 0.0)`).
  * Python string formatting `:.2f` / `:.1f` is `fmtFixed 2` / `fmtFixed 1`
    (round half to even, as CPython does on the underlying value), and the
    f-string rendering of a float (`f">{threshold_pct}%"`) is `pyFloatStr`,
    the shortest-decimal rendering with at least one fractional digit.
  * The two outbound HTTP calls are modelled by passing the transport's
    response (`HttpResult`) as an explicit argument; `requests`'
    `raise_for_status` raises exactly for status codes 400..599
    (`statusRaises`).
  * `main` is `main_run`: the query result `rows` is a parameter (the query
    stage having succeeded), and the observable behaviour is returned as a
    `RunResult` carrying the sequence of executed stages and the outcomes.
-/

/-- One row of the query result: `SELECT r.service, r.recent_cost,
COALESCE(b.baseline_total, 0) AS baseline_total ... ORDER BY r.recent_cost DESC`.
Numeric fields are `Option ℚ` because the code defends against NULL with
`row["recent_cost"] or 0.0`. -/
structure CostRow where
  service : String
  recent_cost : Option ℚ
  baseline_total : Option ℚ
deriving DecidableEq

/-- The anomaly record appended by `detect_anomalies`:
`{"service": ..., "recent_cost": ..., "baseline_avg": ..., "percent_change": ..., "reason": ...}`;
`percent_change` is `None` on the zero-baseline branch. -/
structure Anomaly where
  service : String
  recent_cost : ℚ
  baseline_avg : ℚ
  percent_change : Option ℚ
  reason : String
deriving DecidableEq

/-- Round a rational to the nearest integer, ties to even — the rounding CPython
applies when formatting a float with a fixed number of decimals. -/
def rhe (q : ℚ) : ℤ :=
  let f : ℤ := q.floor
  let frac : ℚ := q - (f : ℚ)
  if frac < 1/2 then f
  else if 1/2 < frac then f + 1
  else if f % 2 = 0 then f else f + 1

/-- Left-pad a string with zeros to length `k`. -/
def padZeros (k : Nat) (s : String) : String :=
  String.mk (List.replicate (k - s.length) '0') ++ s

/-- Python `f"{q:.kf}"`: fixed-point rendering with `k` fractional digits,
rounding half to even. -/
def fmtFixed (k : Nat) (q : ℚ) : String :=
  let n : ℤ := rhe (q * (10 : ℚ) ^ k)
  let sign : String := if n < 0 then "-" else ""
  let m : Nat := n.natAbs
  sign ++ toString (m / 10 ^ k) ++ "." ++ padZeros k (toString (m % 10 ^ k))

/-- Number of decimal digits in the shortest exact decimal rendering of `q`
(capped at 17, the float round-trip bound). -/
def decDigits (q : ℚ) : Nat :=
  (((List.range 18).find? (fun k => (q * (10 : ℚ) ^ k).den = 1)).getD 17)

/-- Python `str`/f-string rendering of a float whose value is a short decimal:
the shortest decimal form, with at least one digit after the point
(`str(30.0) = "30.0"`, `str(0.5) = "0.5"`). -/
def pyFloatStr (q : ℚ) : String :=
  let k := max 1 (decDigits q)
  let n : ℤ := rhe (q * (10 : ℚ) ^ k)
  let sign : String := if n < 0 then "-" else ""
  let m : Nat := n.natAbs
  sign ++ toString (m / 10 ^ k) ++ "." ++ padZeros k (toString (m % 10 ^ k))

/-- `float(row["recent_cost"] or 0.0)`. -/
def recentVal (row : CostRow) : ℚ := row.recent_cost.getD 0

/-- `float(row["baseline_total"] or 0.0)`. -/
def baselineTotalVal (row : CostRow) : ℚ := row.baseline_total.getD 0

/-- `baseline_avg = baseline_total / baseline_days if baseline_days > 0 else 0.0`. -/
def baselineAvg (row : CostRow) (baseline_days : ℤ) : ℚ :=
  if 0 < baseline_days then baselineTotalVal row / (baseline_days : ℚ) else 0

/-- The reason string of the zero-baseline branch:
`f"no baseline; recent >= ${min_abs:.2f}"`. -/
def zeroBaselineReason (min_abs : ℚ) : String :=
  "no baseline; recent >= $" ++ fmtFixed 2 min_abs

/-- The reason string of the threshold branch: `f">{threshold_pct}%"`. -/
def thresholdReason (threshold_pct : ℚ) : String :=
  ">" ++ pyFloatStr threshold_pct ++ "%"

/-- The loop body of `detect_anomalies` for one row: the anomaly appended for
this row, or `none` when the row does not fire. -/
def detectRow (baseline_days : ℤ) (threshold_pct min_abs : ℚ) (row : CostRow) :
    Option Anomaly :=
  let recent_cost := recentVal row
  let baseline_avg := baselineAvg row baseline_days
  if baseline_avg ≤ 0 then
    if recent_cost ≥ min_abs then
      some ⟨row.service, recent_cost, baseline_avg, none, zeroBaselineReason min_abs⟩
    else none
  else
    let pct_change := (recent_cost - baseline_avg) / baseline_avg * 100
    if pct_change > threshold_pct then
      some ⟨row.service, recent_cost, baseline_avg, some pct_change,
            thresholdReason threshold_pct⟩
    else none

/-- `detect_anomalies(rows, baseline_days, threshold_pct, min_abs)`: a single
pass over the rows, appending an anomaly record for each firing row. -/
def detect_anomalies (rows : List CostRow) (baseline_days : ℤ)
    (threshold_pct min_abs : ℚ) : List Anomaly :=
  rows.foldl
    (fun anomalies row =>
      anomalies ++ (detectRow baseline_days threshold_pct min_abs row).toList)
    []

/-- The header line of `format_message`:
`f"*GCP Cost Anomalies for {y_date}* — {len(anomalies)} found\n"`. -/
def headerLine (anomalies : List Anomaly) (y_date : String) : String :=
  "*GCP Cost Anomalies for " ++ y_date ++ "* — " ++ toString anomalies.length
    ++ " found\n"

/-- The `Change:` field of a block:
`f"{a['percent_change']:.1f}%" if a['percent_change'] is not None else "N/A"`. -/
def pctField (a : Anomaly) : String :=
  match a.percent_change with
  | some p => fmtFixed 1 p ++ "%"
  | none => "N/A"

/-- The per-anomaly block appended by the loop of `format_message`. -/
def anomalyBlock (a : Anomaly) : String :=
  "*Service:* " ++ a.service
    ++ "\n  - Recent: $" ++ fmtFixed 2 a.recent_cost
    ++ "\n  - Baseline avg/day: $" ++ fmtFixed 2 a.baseline_avg
    ++ "\n  - Change: " ++ pctField a
    ++ "\n  - Note: " ++ a.reason ++ "\n"

/-- The `lines` list built by `format_message`: the header, then one appended
block per anomaly. -/
def format_lines (anomalies : List Anomaly) (y_date : String) : List String :=
  anomalies.foldl (fun lines a => lines ++ [anomalyBlock a])
    [headerLine anomalies y_date]

/-- `format_message(anomalies, y_date)`: `"\n".join(lines)`. -/
def format_message (anomalies : List Anomaly) (y_date : String) : String :=
  String.intercalate "\n" (format_lines anomalies y_date)

/-- The outcome of one outbound HTTP POST, as seen by the caller: a response
with its status code and whether its body parses as JSON, or a transport
error (connection failure, timeout, redirect loop — anything `requests`
raises before a response is available). -/
inductive HttpResult where
  | response (status : Nat) (jsonOk : Bool)
  | transportError
deriving DecidableEq

/-- `requests.Response.raise_for_status` raises exactly for client and server
error codes, 400 ≤ status < 600. -/
def statusRaises (status : Nat) : Prop := 400 ≤ status ∧ status < 600

instance (status : Nat) : Decidable (statusRaises status) := by
  unfold statusRaises; infer_instance

/-- Python truthiness of an optional string setting: `not X` holds when the
variable is unset or empty. -/
def isBlank (v : Option String) : Prop := v = none ∨ v = some ""

instance (v : Option String) : Decidable (isBlank v) := by
  unfold isBlank; infer_instance

/-- Result of a best-effort delivery component: the boolean it returns and how
many HTTP requests it issued. -/
structure SendOutcome where
  delivered : Bool
  attempts : Nat
deriving DecidableEq

/-- `post_to_slack(text)`: skip (returning `False`) when no webhook is
configured; otherwise one POST, `True` on a non-raising status, `False` on a
raising status or transport error — the `except` swallows every exception. -/
def post_to_slack (webhook : Option String) (resp : HttpResult) : SendOutcome :=
  if isBlank webhook then ⟨false, 0⟩
  else
    match resp with
    | .transportError => ⟨false, 1⟩
    | .response status _ => if statusRaises status then ⟨false, 1⟩ else ⟨true, 1⟩

/-- `create_github_issue(title, body)`: skip (returning `False`) when token or
repository is missing; otherwise one POST, `True` when the status does not
raise and the response body parses as JSON (the success path reads
`r.json()`), `False` on any exception. -/
def create_github_issue (token repo : Option String) (_title _body : String)
    (resp : HttpResult) : SendOutcome :=
  if isBlank token ∨ isBlank repo then ⟨false, 0⟩
  else
    match resp with
    | .transportError => ⟨false, 1⟩
    | .response status jsonOk =>
        if statusRaises status then ⟨false, 1⟩
        else if jsonOk then ⟨true, 1⟩ else ⟨false, 1⟩

/-- The configuration surface read from the environment at module load:
`BILLING_TABLE`, `THRESHOLD_PERCENT`, `BASELINE_DAYS`, `MIN_ABSOLUTE_INCREASE`,
`SLACK_WEBHOOK_URL`, `CREATE_GITHUB_ISSUE`, `GITHUB_TOKEN`,
`GITHUB_REPOSITORY`. These are all the recognized options; in particular the
script reads no dry-run/test-mode variable. -/
structure Config where
  billing_table : String
  threshold_percent : ℚ
  baseline_days : ℤ
  min_absolute_increase : ℚ
  slack_webhook : Option String
  create_issue : Bool
  github_token : Option String
  github_repository : Option String
deriving DecidableEq

/-- The stages `main` can execute, in order of appearance in the code. -/
inductive Event where
  | query
  | report
  | slackPost
  | issueCreate
deriving DecidableEq

/-- Observable behaviour of one run of `main` (after a successful query):
the stages executed, the process exit code, and the values produced. -/
structure RunResult where
  events : List Event
  exitCode : Nat
  anomalies : List Anomaly
  message : Option String
  posted : Option Bool
  created : Option Bool
deriving DecidableEq

/-- `main()`, with the query result `rows` passed in (the query stage having
succeeded; its failure aborts the run before any of this code). Mirrors the
control flow: detect, return early when no anomalies, else format, post to
Slack, and file an issue only when `CREATE_GITHUB_ISSUE` is enabled. -/
def main_run (cfg : Config) (rows : List CostRow) (y_date : String)
    (slackResp ghResp : HttpResult) : RunResult :=
  let anomalies := detect_anomalies rows cfg.baseline_days cfg.threshold_percent
    cfg.min_absolute_increase
  if anomalies = [] then
    { events := [Event.query], exitCode := 0, anomalies := anomalies,
      message := none, posted := none, created := none }
  else
    let message := format_message anomalies y_date
    let posted := post_to_slack cfg.slack_webhook slackResp
    if cfg.create_issue then
      let title := "[Cost Anomaly] " ++ toString anomalies.length
        ++ " anomaly(s) on " ++ y_date
      let body := message ++ "\n\nDetected by automated job."
      let created := create_github_issue cfg.github_token cfg.github_repository
        title body ghResp
      { events := [Event.query, Event.report, Event.slackPost, Event.issueCreate],
        exitCode := 0, anomalies := anomalies, message := some message,
        posted := some posted.delivered, created := some created.delivered }
    else
      { events := [Event.query, Event.report, Event.slackPost],
        exitCode := 0, anomalies := anomalies, message := some message,
        posted := some posted.delivered, created := none }

/-- The 2xx success criterion of the spec's external-interface contract for
the chat webhook ("success = 2xx"); stated for comparison with what the code
actually treats as success. -/
def specIs2xx (status : Nat) : Prop := 200 ≤ status ∧ status < 300

instance (status : Nat) : Decidable (specIs2xx status) := by
  unfold specIs2xx; infer_instance

theorem foldl_snoc_filterMap {α β : Type} (f : α → Option β) :
    ∀ (l : List α) (init : List β),
      l.foldl (fun acc x => acc ++ (f x).toList) init = init ++ l.filterMap f := by
  intro l
  induction l with
  | nil => intro init; simp
  | cons x xs ih =>
      intro init
      cases hf : f x with
      | none => simp [hf, List.filterMap_cons, ih]
      | some b => simp [hf, List.filterMap_cons, ih]

theorem detect_anomalies_eq_filterMap (rows : List CostRow) (d : ℤ) (t m : ℚ) :
    detect_anomalies rows d t m = rows.filterMap (detectRow d t m) := by
  have h := foldl_snoc_filterMap (detectRow d t m) rows []
  rw [List.nil_append] at h
  exact h

theorem detect_singleton (row : CostRow) (d : ℤ) (t m : ℚ) :
    detect_anomalies [row] d t m = (detectRow d t m row).toList := by
  cases hf : detectRow d t m row <;>
    simp [detect_anomalies_eq_filterMap, List.filterMap_cons, hf]

theorem detectRow_eq_some {d : ℤ} {t m : ℚ} {row : CostRow} {a : Anomaly}
    (h : detectRow d t m row = some a) :
    (a.baseline_avg ≤ 0 ∧ a.percent_change = none
        ∧ a.reason = zeroBaselineReason m ∧ m ≤ a.recent_cost)
    ∨ (0 < a.baseline_avg
        ∧ a.percent_change
            = some ((a.recent_cost - a.baseline_avg) / a.baseline_avg * 100)
        ∧ a.reason = thresholdReason t
        ∧ t < (a.recent_cost - a.baseline_avg) / a.baseline_avg * 100) := by
  simp only [detectRow] at h
  by_cases h0 : baselineAvg row d ≤ 0
  · rw [if_pos h0] at h
    by_cases h1 : recentVal row ≥ m
    · rw [if_pos h1] at h
      obtain rfl := Option.some.inj h
      exact Or.inl ⟨h0, rfl, rfl, h1⟩
    · rw [if_neg h1] at h
      cases h
  · rw [if_neg h0] at h
    by_cases h2 : (recentVal row - baselineAvg row d) / baselineAvg row d * 100 > t
    · rw [if_pos h2] at h
      obtain rfl := Option.some.inj h
      exact Or.inr ⟨not_le.mp h0, rfl, rfl, h2⟩
    · rw [if_neg h2] at h
      cases h

theorem foldl_snoc_map {α β : Type} (f : α → β) :
    ∀ (l : List α) (init : List β),
      l.foldl (fun acc x => acc ++ [f x]) init = init ++ l.map f := by
  intro l
  induction l with
  | nil => intro init; simp
  | cons x xs ih => intro init; simp [ih]

theorem format_lines_eq (anomalies : List Anomaly) (y_date : String) :
    format_lines anomalies y_date
      = headerLine anomalies y_date :: anomalies.map anomalyBlock := by
  have h := foldl_snoc_map anomalyBlock anomalies [headerLine anomalies y_date]
  simpa [format_lines] using h

theorem append_percent_ne_NA (s : String) : s ++ "%" ≠ "N/A" := by
  intro hcontra
  have hd : s.data ++ ['%'] = ['N', '/', 'A'] := by
    have h1 := congrArg String.data hcontra
    simpa [String.data_append] using h1
  have hlen : s.data.length = 2 := by
    have h2 := congrArg List.length hd
    simpa using h2
  obtain ⟨a, b, hab⟩ := List.length_eq_two.mp hlen
  rw [hab] at hd
  simp at hd

/-- C6: `detect_anomalies` preserves the input row order: its output is the
order-preserving selection (`List.filterMap`) of the per-row rule `detectRow`
over the rows, with no re-sorting in the detection stage. -/
theorem detect_order_preserving (rows : List CostRow) (d : ℤ) (t m : ℚ) :
    detect_anomalies rows d t m = rows.filterMap (detectRow d t m) :=
  detect_anomalies_eq_filterMap rows d t m

/-- C1: for a row whose baseline average is strictly positive,
`detect_anomalies` fires iff `(recent_cost - baseline_avg) / baseline_avg *
100` strictly exceeds the threshold; at exact equality nothing fires; and on
Scenario A (recent 150.00, baseline average 10.00, threshold 50) it produces
an anomaly with percent_change 1400. -/
theorem detect_threshold_strict (row : CostRow) (d : ℤ) (t m : ℚ)
    (h : 0 < baselineAvg row d) :
    (detect_anomalies [row] d t m ≠ [] ↔
        t < (recentVal row - baselineAvg row d) / baselineAvg row d * 100)
    ∧ ((recentVal row - baselineAvg row d) / baselineAvg row d * 100 = t →
        detect_anomalies [row] d t m = [])
    ∧ detect_anomalies [⟨"Compute Engine", some 150, some 70⟩] 7 50 5
        = [⟨"Compute Engine", 150, 10, some 1400, thresholdReason 50⟩] := by
  have h0 : ¬ baselineAvg row d ≤ 0 := not_le.mpr h
  refine ⟨?_, ?_, by with_unfolding_all decide⟩
  · rw [detect_singleton]
    simp only [detectRow, if_neg h0]
    by_cases ht : (recentVal row - baselineAvg row d) / baselineAvg row d * 100 > t
    · simp [ht]
    · simp [ht]
  · intro heq
    rw [detect_singleton]
    simp only [detectRow, if_neg h0, heq]
    simp

/-- Witness for C1 at Scenario A. -/
theorem detect_threshold_strict_witness :
    detect_anomalies [⟨"Compute Engine", some 150, some 70⟩] 7 50 5 ≠ [] :=
  (detect_threshold_strict ⟨"Compute Engine", some 150, some 70⟩ 7 50 5
      (by with_unfolding_all decide)).1.mpr (by with_unfolding_all decide)

/-- C2: for a row whose baseline average is ≤ 0, `detect_anomalies` fires iff
`recent_cost ≥ min_absolute_increase` (inclusive), every anomaly it then
produces has `percent_change` absent, and across any input list an anomaly's
`percent_change` is absent exactly when its `baseline_avg` is ≤ 0. -/
theorem detect_zero_baseline_floor (row : CostRow) (rows : List CostRow)
    (d : ℤ) (t m : ℚ) (h : baselineAvg row d ≤ 0) :
    (detect_anomalies [row] d t m ≠ [] ↔ m ≤ recentVal row)
    ∧ (∀ a ∈ detect_anomalies [row] d t m, a.percent_change = none)
    ∧ (∀ a ∈ detect_anomalies rows d t m,
        (a.percent_change = none ↔ a.baseline_avg ≤ 0)) := by
  refine ⟨?_, ?_, ?_⟩
  · rw [detect_singleton]
    simp only [detectRow, if_pos h]
    by_cases h1 : recentVal row ≥ m
    · simp [h1]
    · simp [h1]
  · intro a ha
    rw [detect_singleton] at ha
    have hsome : detectRow d t m row = some a := by
      cases hf : detectRow d t m row <;> rw [hf] at ha <;> simp at ha
      rw [ha]
    simp only [detectRow, if_pos h] at hsome
    by_cases h1 : recentVal row ≥ m
    · rw [if_pos h1] at hsome
      obtain rfl := Option.some.inj hsome
      rfl
    · rw [if_neg h1] at hsome
      cases hsome
  · intro a ha
    rw [detect_anomalies_eq_filterMap] at ha
    obtain ⟨r, _, hr⟩ := List.mem_filterMap.mp ha
    rcases detectRow_eq_some hr with ⟨hle, hnone, _, _⟩ | ⟨hpos, hsome, _, _⟩
    · simp [hnone, hle]
    · simp [hsome]
      exact hpos

/-- Witness for C2 at Scenario B (recent 20.00, zero baseline, floor 5.0). -/
theorem detect_zero_baseline_floor_witness :
    detect_anomalies [⟨"New Service", some 20, some 0⟩] 7 30 5 ≠ [] :=
  (detect_zero_baseline_floor ⟨"New Service", some 20, some 0⟩ [] 7 30 5
      (by with_unfolding_all decide)).1.mpr (by with_unfolding_all decide)

/-- C10: `detect_anomalies` is total for every integer `baseline_days`,
including 0 and negatives: when `baseline_days ≤ 0` the guard sets
`baseline_avg` to 0 instead of dividing, so every row is decided by the
zero-baseline absolute-floor branch; and on the dividing branch
(`baseline_days > 0`) the divisor is nonzero and the division exact. -/
theorem detect_baseline_days_nonpositive (rows : List CostRow) (d : ℤ)
    (t m : ℚ) (h : d ≤ 0) :
    (∀ row : CostRow, baselineAvg row d = 0)
    ∧ detect_anomalies rows d t m
        = rows.filterMap (fun row =>
            if m ≤ recentVal row then
              some ⟨row.service, recentVal row, 0, none, zeroBaselineReason m⟩
            else none)
    ∧ (∀ d2 : ℤ, 0 < d2 →
        ((d2 : ℚ) ≠ 0
          ∧ ∀ row : CostRow, baselineAvg row d2 * (d2 : ℚ) = baselineTotalVal row)) := by
  have havg : ∀ row : CostRow, baselineAvg row d = 0 := by
    intro row
    simp [baselineAvg, not_lt.mpr h]
  refine ⟨havg, ?_, ?_⟩
  · rw [detect_anomalies_eq_filterMap]
    have hfun : detectRow d t m = fun row =>
        if m ≤ recentVal row then
          some ⟨row.service, recentVal row, 0, none, zeroBaselineReason m⟩
        else none := by
      funext row
      simp only [detectRow, havg row, le_refl, if_pos, ge_iff_le]
    rw [hfun]
  · intro d2 hd2
    have hne : (d2 : ℚ) ≠ 0 := by
      exact_mod_cast ne_of_gt hd2
    refine ⟨hne, fun row => ?_⟩
    simp [baselineAvg, hd2, div_mul_cancel₀ _ hne]

/-- Witness for C10 at `baseline_days = 0`. -/
theorem detect_baseline_days_nonpositive_witness :
    baselineAvg ⟨"svc", some 7, some 100⟩ 0 = 0 :=
  (detect_baseline_days_nonpositive [] 0 30 5 (by decide)).1 ⟨"svc", some 7, some 100⟩

/-- C3: for a non-empty anomaly list, the Reporter's line list is the header —
whose declared count is the length of the anomaly list — followed by exactly
one block per anomaly in order (each block rendering money via `fmtFixed 2`
and percent via `fmtFixed 1`), and the percent field is `"N/A"` exactly when
`percent_change` is absent. -/
theorem format_message_blocks (anomalies : List Anomaly) (y_date : String)
    (h : anomalies ≠ []) :
    format_lines anomalies y_date
        = ("*GCP Cost Anomalies for " ++ y_date ++ "* — "
            ++ toString anomalies.length ++ " found\n")
          :: anomalies.map anomalyBlock
    ∧ (format_lines anomalies y_date).length = anomalies.length + 1
    ∧ (∀ a : Anomaly, pctField a = "N/A" ↔ a.percent_change = none) := by
  refine ⟨format_lines_eq anomalies y_date, ?_, ?_⟩
  · rw [format_lines_eq]
    simp
  · intro a
    cases hp : a.percent_change with
    | none => simp [pctField, hp]
    | some p =>
        simp only [pctField, hp]
        constructor
        · intro hcontra
          exact absurd hcontra (append_percent_ne_NA (fmtFixed 1 p))
        · intro hcontra
          cases hcontra

/-- Witness for C3 on a one-anomaly list. -/
theorem format_message_blocks_witness :
    (format_lines [⟨"b", 20, 0, none, "r"⟩] "2026-10-11").length = 1 + 1 :=
  (format_message_blocks [⟨"b", 20, 0, none, "r"⟩] "2026-10-11"
      (List.cons_ne_nil _ _)).2.1

/-- C4 counterexample: a 304 response is not 2xx, yet `post_to_slack` reports
it as delivered (`requests.raise_for_status` raises only on 4xx/5xx), so
"non-2xx ⇒ not delivered" is false as stated. -/
theorem post_to_slack_non2xx_counterexample :
    post_to_slack (some "https://hooks.example/T0/B0")
        (HttpResult.response 304 true) = ⟨true, 1⟩
    ∧ ¬ specIs2xx 304 := by
  decide

/-- C4 amended: `post_to_slack` never raises (it is a total function): with no
or an empty webhook it returns not-delivered without attempting delivery; it
makes at most one attempt; a transport error or an HTTP 4xx/5xx status (what
`raise_for_status` raises on) yields not-delivered; any other status yields
delivered. -/
theorem post_to_slack_outcomes (webhook : Option String) (resp : HttpResult)
    (url : String) (hu : ¬ isBlank (some url)) :
    post_to_slack none resp = ⟨false, 0⟩
    ∧ post_to_slack (some "") resp = ⟨false, 0⟩
    ∧ (post_to_slack webhook resp).attempts ≤ 1
    ∧ post_to_slack (some url) HttpResult.transportError = ⟨false, 1⟩
    ∧ (∀ (s : Nat) (j : Bool), statusRaises s →
        post_to_slack (some url) (HttpResult.response s j) = ⟨false, 1⟩)
    ∧ (∀ (s : Nat) (j : Bool), ¬ statusRaises s →
        post_to_slack (some url) (HttpResult.response s j) = ⟨true, 1⟩) := by
  refine ⟨?_, ?_, ?_, ?_, ?_, ?_⟩
  · simp [post_to_slack, isBlank]
  · simp [post_to_slack, isBlank]
  · by_cases hb : isBlank webhook
    · simp [post_to_slack, hb]
    · cases resp with
      | transportError => simp [post_to_slack, hb]
      | response s j => by_cases hs : statusRaises s <;> simp [post_to_slack, hb, hs]
  · simp [post_to_slack, hu]
  · intro s j hs
    simp [post_to_slack, hu, hs]
  · intro s j hs
    simp [post_to_slack, hu, hs]

/-- Witness for C4 (amended) on a transport error. -/
theorem post_to_slack_outcomes_witness :
    post_to_slack (some "https://hooks.example/T0/B0") HttpResult.transportError
      = ⟨false, 1⟩ :=
  (post_to_slack_outcomes none HttpResult.transportError
      "https://hooks.example/T0/B0" (by decide)).2.2.2.1

/-- C5: when detection yields no anomalies, `main` returns right after the
detection log line: only the query stage runs, no message is formatted, no
Slack post and no issue creation happen; and the empty row list yields the
empty anomaly list. -/
theorem main_short_circuit_no_anomalies (cfg : Config) (rows : List CostRow)
    (y_date : String) (slackResp ghResp : HttpResult)
    (h : detect_anomalies rows cfg.baseline_days cfg.threshold_percent
        cfg.min_absolute_increase = []) :
    main_run cfg rows y_date slackResp ghResp
        = { events := [Event.query], exitCode := 0, anomalies := [],
            message := none, posted := none, created := none }
    ∧ Event.report ∉ (main_run cfg rows y_date slackResp ghResp).events
    ∧ Event.slackPost ∉ (main_run cfg rows y_date slackResp ghResp).events
    ∧ Event.issueCreate ∉ (main_run cfg rows y_date slackResp ghResp).events
    ∧ detect_anomalies ([] : List CostRow) cfg.baseline_days
        cfg.threshold_percent cfg.min_absolute_increase = [] := by
  have hm : main_run cfg rows y_date slackResp ghResp
      = { events := [Event.query], exitCode := 0, anomalies := [],
          message := none, posted := none, created := none } := by
    simp [main_run, h]
  refine ⟨hm, ?_, ?_, ?_, rfl⟩ <;> rw [hm] <;> decide

/-- Witness for C5 at Scenario E (empty row list). -/
theorem main_short_circuit_no_anomalies_witness :
    main_run ⟨"proj.ds.table", 30, 7, 5, none, false, none, none⟩ []
        "2026-10-11" HttpResult.transportError HttpResult.transportError
      = { events := [Event.query], exitCode := 0, anomalies := [],
          message := none, posted := none, created := none } :=
  (main_short_circuit_no_anomalies ⟨"proj.ds.table", 30, 7, 5, none, false, none, none⟩
      [] "2026-10-11" HttpResult.transportError HttpResult.transportError rfl).1

/-- C7 counterexample: the reasons the code writes are
`"no baseline; recent >= $5.00"` (floor interpolated, two decimals) and
`">30.0%"` (threshold interpolated), not the spec's literal
`"no baseline; recent ≥ floor"` and `"exceeds 30% threshold"`. -/
theorem anomaly_reason_literal_counterexample :
    (detect_anomalies [⟨"New Service", some 20, some 0⟩] 7 30 5).map
        Anomaly.reason = ["no baseline; recent >= $5.00"]
    ∧ ("no baseline; recent >= $5.00" : String) ≠ "no baseline; recent ≥ floor"
    ∧ (detect_anomalies [⟨"Compute Engine", some 150, some 70⟩] 7 30 5).map
        Anomaly.reason = [">30.0%"]
    ∧ (">30.0%" : String) ≠ "exceeds 30% threshold" := by
  with_unfolding_all decide

/-- C7 amended: every anomaly carries the branch's reason text: on the
zero-baseline branch `"no baseline; recent >= $F"` with `F` the configured
floor rendered to two decimals, and on the threshold branch `">T%"` with `T`
the configured threshold rendered as Python renders the float. -/
theorem anomaly_reason_strings (rows : List CostRow) (d : ℤ) (t m : ℚ) :
    ∀ a ∈ detect_anomalies rows d t m,
      (a.baseline_avg ≤ 0 ∧ a.percent_change = none
          ∧ a.reason = "no baseline; recent >= $" ++ fmtFixed 2 m)
      ∨ (0 < a.baseline_avg ∧ a.reason = ">" ++ pyFloatStr t ++ "%") := by
  intro a ha
  rw [detect_anomalies_eq_filterMap] at ha
  obtain ⟨r, _, hr⟩ := List.mem_filterMap.mp ha
  rcases detectRow_eq_some hr with ⟨hle, hnone, hreason, _⟩ | ⟨hpos, _, hreason, _⟩
  · exact Or.inl ⟨hle, hnone, hreason⟩
  · exact Or.inr ⟨hpos, hreason⟩

/-- Witness for C7 (amended) at Scenario B's anomaly. -/
theorem anomaly_reason_strings_witness :
    ((⟨"New Service", 20, 0, none, zeroBaselineReason 5⟩ : Anomaly).baseline_avg ≤ 0
        ∧ (⟨"New Service", 20, 0, none, zeroBaselineReason 5⟩ : Anomaly).percent_change
            = none
        ∧ (⟨"New Service", 20, 0, none, zeroBaselineReason 5⟩ : Anomaly).reason
            = "no baseline; recent >= $" ++ fmtFixed 2 5)
    ∨ (0 < (⟨"New Service", 20, 0, none, zeroBaselineReason 5⟩ : Anomaly).baseline_avg
        ∧ (⟨"New Service", 20, 0, none, zeroBaselineReason 5⟩ : Anomaly).reason
            = ">" ++ pyFloatStr 30 ++ "%") :=
  anomaly_reason_strings [⟨"New Service", some 20, some 0⟩] 7 30 5
    ⟨"New Service", 20, 0, none, zeroBaselineReason 5⟩
    (by with_unfolding_all decide)

/-- C8: `create_github_issue` returns not-filed without an attempt when token
or repository is missing; a failed attempt (transport error or raising
status) returns not-filed without raising; it makes at most one attempt; and
no issue-filing outcome changes `main`'s exit status from 0. -/
theorem create_github_issue_best_effort (token repo : Option String)
    (title body : String) (resp : HttpResult) (cfg : Config)
    (rows : List CostRow) (y_date : String) (slackResp ghResp : HttpResult)
    (h : isBlank token ∨ isBlank repo) :
    create_github_issue token repo title body resp = ⟨false, 0⟩
    ∧ (∀ tk rp : Option String,
        (create_github_issue tk rp title body HttpResult.transportError).delivered
          = false)
    ∧ (∀ (tk rp : Option String) (s : Nat) (j : Bool), statusRaises s →
        (create_github_issue tk rp title body (HttpResult.response s j)).delivered
          = false)
    ∧ (∀ (tk rp : Option String) (r2 : HttpResult),
        (create_github_issue tk rp title body r2).attempts ≤ 1)
    ∧ (main_run cfg rows y_date slackResp ghResp).exitCode = 0 := by
  refine ⟨?_, ?_, ?_, ?_, ?_⟩
  · simp [create_github_issue, h]
  · intro tk rp
    by_cases hb : isBlank tk ∨ isBlank rp <;> simp [create_github_issue, hb]
  · intro tk rp s j hs
    by_cases hb : isBlank tk ∨ isBlank rp <;> simp [create_github_issue, hb, hs]
  · intro tk rp r2
    by_cases hb : isBlank tk ∨ isBlank rp
    · simp [create_github_issue, hb]
    · cases r2 with
      | transportError => simp [create_github_issue, hb]
      | response s j =>
          by_cases hs : statusRaises s
          · simp [create_github_issue, hb, hs]
          · by_cases hj : j <;> simp [create_github_issue, hb, hs, hj]
  · unfold main_run
    by_cases he : detect_anomalies rows cfg.baseline_days cfg.threshold_percent
        cfg.min_absolute_increase = []
    · simp [he]
    · by_cases hc : cfg.create_issue <;> simp [he, hc]

/-- Witness for C8 with a missing token. -/
theorem create_github_issue_best_effort_witness :
    create_github_issue none (some "owner/repo") "title" "body"
        (HttpResult.response 201 true) = ⟨false, 0⟩ :=
  (create_github_issue_best_effort none (some "owner/repo") "title" "body"
      (HttpResult.response 201 true)
      ⟨"proj.ds.table", 30, 7, 5, none, false, none, none⟩ [] "2026-10-11"
      HttpResult.transportError HttpResult.transportError
      (Or.inl (Or.inl rfl))).1

/-- C9 counterexample: no configuration of the script bypasses the billing
query — `main` runs the query stage unconditionally, so the claimed dry-run
mode does not exist for any configuration. -/
theorem no_dry_run_mode_counterexample :
    ¬ ∃ (cfg : Config) (rows : List CostRow) (y_date : String)
        (slackResp ghResp : HttpResult),
        Event.query ∉ (main_run cfg rows y_date slackResp ghResp).events := by
  rintro ⟨cfg, rows, y_date, slackResp, ghResp, hq⟩
  apply hq
  unfold main_run
  by_cases he : detect_anomalies rows cfg.baseline_days cfg.threshold_percent
      cfg.min_absolute_increase = []
  · simp [he]
  · by_cases hc : cfg.create_issue <;> simp [he, hc]

/-- C9 amended: the configuration surface (`Config`, the full set of
environment options the script reads) has no dry-run/test option: for every
configuration the query stage executes and the anomaly list is exactly the
detection output on the query's rows — no synthetic anomaly is injected. -/
theorem query_always_executed (cfg : Config) (rows : List CostRow)
    (y_date : String) (slackResp ghResp : HttpResult) :
    Event.query ∈ (main_run cfg rows y_date slackResp ghResp).events
    ∧ (main_run cfg rows y_date slackResp ghResp).anomalies
        = detect_anomalies rows cfg.baseline_days cfg.threshold_percent
            cfg.min_absolute_increase := by
  constructor <;>
    (unfold main_run
     by_cases he : detect_anomalies rows cfg.baseline_days cfg.threshold_percent
         cfg.min_absolute_increase = []
     · simp [he]
     · by_cases hc : cfg.create_issue <;> simp [he, hc])
